import Mathlib

/-!
Verification of the hive credential subsystem.

This file gives a shallow embedding of the two source files

* `src/core/framework/credentials/validation.py`
  (`ensure_credential_key_env`, `validate_agent_credentials`), and
* `src/core/framework/tui/screens/credential_setup.py`
  (`CredentialSetupScreen._save_credentials`, `action_dismiss_setup`,
  the Skip button branch of `on_button_pressed`),

and proves the documented properties of the credential validation and
credential setup flows against it.

External collaborators that the Python code merely calls through a narrow
interface are modelled as explicit parameters:

* the `aden_tools` store adapter (`get_missing_for_tools`,
  `get_missing_for_node_types`) becomes a `CredentialStoreAdapter` value;
  `Option CredentialStoreAdapter` models the import-failure feature probe
  (`none` = `aden_tools` not installed);
* the shell-config lookup `check_env_var_in_shell_config` becomes a
  `ShellConfigLookup` function, again wrapped in `Option` for the import
  probe;
* the process environment `os.environ` becomes `Env := String → Option
  String`;
* the setup session collaborators (`_ensure_credential_key`,
  `_store_credential`) and the Textual UI calls of the modal screen are
  recorded as an explicit effect trace, with the store collaborator an
  abstract `MissingCredential → String → Except String Unit`.

Python `sorted` on strings is lexicographic on code points; it is embedded
as insertion sort by an executable lexicographic order `strLe` so that
concrete runs reduce inside the kernel.  Python `str.strip` is embedded as
`stripStr`, dropping whitespace from both ends of the character list.
-/

namespace Hive

/-! ### Lexicographic string order (Python `sorted` on `str`) -/

/-- Lexicographic comparison of character lists by code point, the order
Python uses when sorting strings. -/
def charListLe : List Char → List Char → Bool
  | [], _ => true
  | _ :: _, [] => false
  | a :: as, b :: bs => if a < b then true else if b < a then false else charListLe as bs

/-- Lexicographic `≤` on strings, by code point. -/
def strLe (a b : String) : Bool := charListLe a.data b.data

/-- `sorted(...)` from Python, on a list of strings. -/
def sortedStr (l : List String) : List String :=
  l.insertionSort (fun a b => strLe a b = true)

/-- Python `str.strip()`: drop whitespace from both ends. -/
def stripStr (s : String) : String :=
  ⟨((s.data.dropWhile Char.isWhitespace).reverse.dropWhile Char.isWhitespace).reverse⟩

/-! ### Data model -/

/-- A node of the agent graph, as `validate_agent_credentials` reads it:
only the `tools` list and the `node_type` attribute are consulted. -/
structure NodeSpec where
  tools : List String
  node_type : String
deriving DecidableEq

/-- The credential-spec metadata carried by the store adapter results:
`env_var`, the `tools` and `node_types` sets it is required by, and the
optional `help_url`. -/
structure CredentialSpec where
  env_var : String
  tools : List String
  node_types : List String
  help_url : Option String
deriving DecidableEq

/-- The `aden_tools` store adapter, abstracted at its call interface:
`get_missing_for_tools` and `get_missing_for_node_types` each return a
sequence of `(credential name, spec)` pairs for missing credentials. -/
structure CredentialStoreAdapter where
  get_missing_for_tools : List String → List (String × CredentialSpec)
  get_missing_for_node_types : List String → List (String × CredentialSpec)

/-- The process environment `os.environ`. -/
abbrev Env := String → Option String

/-- The `check_env_var_in_shell_config` collaborator:
`var ↦ (found, value)`. -/
abbrev ShellConfigLookup := String → Bool × Option String

/-- `os.environ[k] = v`. -/
def setEnv (env : Env) (k v : String) : Env :=
  fun x => if x = k then some v else env x

/-- Python truthiness of `os.environ.get(var)`: `none` (absent) and
`some ""` (present but empty) are falsy. -/
def envTruthy : Option String → Bool
  | some s => decide (s ≠ "")
  | none => false

/-! ### `ensure_credential_key_env` -/

/-- The two variables `ensure_credential_key_env` loads. -/
def credentialKeyVars : List String := ["HIVE_CREDENTIAL_KEY", "ADEN_API_KEY"]

/-- One iteration of the loop in `ensure_credential_key_env`: skip when
`os.environ.get(var_name)` is truthy, otherwise consult the shell-config
lookup and set the variable when `found and value` is truthy. -/
def ensureStep (lookup : ShellConfigLookup) (env : Env) (var : String) : Env :=
  if envTruthy (env var) then env
  else
    match lookup var with
    | (found, some value) =>
        if found && decide (value ≠ "") then setEnv env var value else env
    | (_, none) => env

/-- `ensure_credential_key_env()`, with the shell-config collaborator as an
explicit optional parameter (`none` models the `ImportError` early return). -/
def ensure_credential_key_env (lookup : Option ShellConfigLookup) (env : Env) : Env :=
  match lookup with
  | none => env
  | some l => credentialKeyVars.foldl (ensureStep l) env

/-- What one variable resolves to from the shell-config lookup result:
the found non-empty value, or the current environment entry. -/
def lookupValue (lookup : ShellConfigLookup) (var : String) (cur : Option String) :
    Option String :=
  match lookup var with
  | (found, some v) => if found && decide (v ≠ "") then some v else cur
  | (_, none) => cur

/-! ### `validate_agent_credentials` -/

/-- The aggregated, deduplicated, sorted tool requirements of the node
list (`required_tools` in the source, already passed through `sorted`). -/
def required_tools (nodes : List NodeSpec) : List String :=
  sortedStr (nodes.flatMap NodeSpec.tools).dedup

/-- The aggregated, deduplicated, sorted node types of the node list
(`node_types` in the source, already passed through `sorted`). -/
def graph_node_types (nodes : List NodeSpec) : List String :=
  sortedStr (nodes.map NodeSpec.node_type).dedup

/-- The sorted subset of the workload's own tools that a spec's `tools`
set matches: `sorted(t for t in required_tools if t in spec.tools)`. -/
def affectedTools (rt : List String) (spec : CredentialSpec) : List String :=
  sortedStr (rt.filter (fun t => decide (t ∈ spec.tools)))

/-- The sorted subset of the workload's own node types that a spec's
`node_types` set matches. -/
def affectedNodeTypes (nt : List String) (spec : CredentialSpec) : List String :=
  sortedStr (nt.filter (fun t => decide (t ∈ spec.node_types)))

/-- The optional `"\n    Get it at: <url>"` suffix of a missing entry. -/
def helpSuffix (spec : CredentialSpec) : String :=
  match spec.help_url with
  | some url => "\n    Get it at: " ++ url
  | none => ""

/-- One missing entry produced by the tool pass. -/
def toolEntry (rt : List String) (spec : CredentialSpec) : String :=
  "  " ++ spec.env_var ++ " for " ++ String.intercalate ", " (affectedTools rt spec) ++
    helpSuffix spec

/-- One missing entry produced by the node-type pass; note the `" nodes"`
suffix after the joined type names. -/
def nodeTypeEntry (nt : List String) (spec : CredentialSpec) : String :=
  "  " ++ spec.env_var ++ " for " ++
    String.intercalate ", " (affectedNodeTypes nt spec) ++ " nodes" ++ helpSuffix spec

/-- The `missing` list built by the two adapter passes, appending one
entry per returned pair, tool pass first. -/
def missingEntries (adapter : CredentialStoreAdapter) (nodes : List NodeSpec) :
    List String :=
  let rt := required_tools nodes
  let nt := graph_node_types nodes
  let afterTools := (adapter.get_missing_for_tools rt).foldl
    (fun acc p => acc ++ [toolEntry rt p.2]) []
  (adapter.get_missing_for_node_types nt).foldl
    (fun acc p => acc ++ [nodeTypeEntry nt p.2]) afterTools

/-- The trailing remediation hint appended as the last line block. -/
def remediationFooter : String :=
  "\nTo fix: run /hive-credentials in Claude Code." ++
    "\nIf you\x27ve already set up credentials, restart your terminal to load them."

/-- The `CredentialError` message: header, the missing entries, and the
remediation footer, joined with newlines. -/
def credentialErrorMessage (missing : List String) : String :=
  String.intercalate "\n" (["Missing required credentials:\n"] ++ missing ++
    [remediationFooter])

/-- `validate_agent_credentials(nodes)`.  The first component is the
process environment after the call (the `ensure_credential_key_env` side
effect); the second is `Except.error msg` for a raised `CredentialError`
and `Except.ok ()` for a normal return.  `adapter = none` models
`aden_tools` not being installed. -/
def validate_agent_credentials (adapter : Option CredentialStoreAdapter)
    (lookup : Option ShellConfigLookup) (env : Env) (nodes : List NodeSpec) :
    Env × Except String Unit :=
  match adapter with
  | none => (env, Except.ok ())
  | some adapter =>
      let env' := ensure_credential_key_env lookup env
      let missing := missingEntries adapter nodes
      if missing.isEmpty then (env', Except.ok ())
      else (env', Except.error (credentialErrorMessage missing))

/-! ### The credential setup modal screen -/

/-- One missing credential presented by the setup screen, with the fields
`_save_credentials` and `compose` read. -/
structure MissingCredential where
  env_var : String
  tools : List String
  node_types : List String
  description : Option String
  help_url : Option String
deriving DecidableEq

/-- The `CredentialSetupSession._store_credential` collaborator: storing a
value for an entry either succeeds or fails with an exception message. -/
abbrev StoreCredential := MissingCredential → String → Except String Unit

/-- Observable actions of the modal screen, in the order they happen:
the `_ensure_credential_key` call, reading input `i`, a successful store
write, an error or warning notification, and `self.dismiss(result)`. -/
inductive Effect where
  | ensureKey : Effect
  | readInput : Nat → Effect
  | storeWrite : String → String → Effect
  | notifyError : String → Effect
  | notifyWarning : String → Effect
  | dismiss : Option Bool → Effect
deriving DecidableEq

/-- The loop body of `_save_credentials` for one `(i, cred)` pair,
threading the effect trace and the `configured` counter. -/
def saveStep (store : StoreCredential) (inputs : Nat → String)
    (acc : List Effect × Nat) (p : Nat × MissingCredential) : List Effect × Nat :=
  let effs := acc.1 ++ [Effect.readInput p.1]
  let value := stripStr (inputs p.1)
  if value = "" then (effs, acc.2)
  else
    match store p.2 value with
    | Except.ok _ => (effs ++ [Effect.storeWrite p.2.env_var value], acc.2 + 1)
    | Except.error e =>
        (effs ++ [Effect.notifyError ("Error storing " ++ p.2.env_var ++ ": " ++ e)],
          acc.2)

/-- `CredentialSetupScreen._save_credentials`: ensure the encryption key,
loop over the missing entries reading, trimming, skipping blanks and
storing the rest, then either dismiss with `True` or warn that nothing was
entered.  `inputs i` is the raw text of the `#key-i` input widget. -/
def _save_credentials (store : StoreCredential) (missing : List MissingCredential)
    (inputs : Nat → String) : List Effect :=
  let res := missing.enum.foldl (saveStep store inputs) ([Effect.ensureKey], 0)
  if res.2 > 0 then res.1 ++ [Effect.dismiss (some true)]
  else res.1 ++ [Effect.notifyWarning "No credentials entered"]

/-- The `btn-skip` branch of `on_button_pressed`: `self.dismiss(None)`. -/
def skip_button_effects : List Effect := [Effect.dismiss none]

/-- `CredentialSetupScreen.action_dismiss_setup` (bound to Escape):
`self.dismiss(None)`. -/
def action_dismiss_setup : List Effect := [Effect.dismiss none]

/-! ### Structure lemmas for the setup screen loop -/

/-- The effects one `(i, cred)` pair contributes to the trace. -/
def entryEffects (store : StoreCredential) (inputs : Nat → String)
    (p : Nat × MissingCredential) : List Effect :=
  let value := stripStr (inputs p.1)
  Effect.readInput p.1 ::
    (if value = "" then []
     else match store p.2 value with
       | Except.ok _ => [Effect.storeWrite p.2.env_var value]
       | Except.error e => [Effect.notifyError ("Error storing " ++ p.2.env_var ++ ": " ++ e)])

/-- Whether one `(i, cred)` pair increments the `configured` counter:
non-blank after trimming, and the store call succeeds. -/
def entryConfigured (store : StoreCredential) (inputs : Nat → String)
    (p : Nat × MissingCredential) : Bool :=
  decide (stripStr (inputs p.1) ≠ "") && (store p.2 (stripStr (inputs p.1))).toBool

/-! ### Effect classifiers -/

/-- Recognise a successful store write in the trace. -/
def isStoreWrite : Effect → Bool
  | Effect.storeWrite _ _ => true
  | _ => false

/-- Recognise any notification (error or warning) in the trace. -/
def isNotification : Effect → Bool
  | Effect.notifyError _ => true
  | Effect.notifyWarning _ => true
  | _ => false

/-- Recognise a `dismiss` call in the trace. -/
def isDismiss : Effect → Bool
  | Effect.dismiss _ => true
  | _ => false

/-! ### Concrete fixtures used by witnesses and counterexamples -/

/-- The empty process environment. -/
def emptyEnv : Env := fun _ => none

/-- A spec required by the `slack` tool, with a help URL. -/
def slackSpec : CredentialSpec :=
  { env_var := "SLACK_API_KEY", tools := ["slack"], node_types := [],
    help_url := some "https://api.slack.com/apps" }

/-- An adapter reporting `slackSpec` missing for the tool pass only. -/
def w1Adapter : CredentialStoreAdapter :=
  { get_missing_for_tools := fun _ => [("slack", slackSpec)],
    get_missing_for_node_types := fun _ => [] }

/-- A one-node workload using the `slack` tool. -/
def w1Nodes : List NodeSpec := [{ tools := ["slack"], node_type := "llm" }]

/-- A spec required both by the `search` tool and by the `llm` node type. -/
def dualSpec : CredentialSpec :=
  { env_var := "DUAL_KEY", tools := ["search"], node_types := ["llm"],
    help_url := none }

/-- An adapter reporting `dualSpec` missing in both passes, as the §6
contract prescribes for a spec matching both requirement kinds. -/
def dualAdapter : CredentialStoreAdapter :=
  { get_missing_for_tools := fun _ => [("dual", dualSpec)],
    get_missing_for_node_types := fun _ => [("dual", dualSpec)] }

/-- A one-node workload using the `search` tool on an `llm` node. -/
def dualNodes : List NodeSpec := [{ tools := ["search"], node_type := "llm" }]

/-- A spec required by the `llm` node type only. -/
def anthropicSpec : CredentialSpec :=
  { env_var := "ANTHROPIC_API_KEY", tools := [], node_types := ["llm"],
    help_url := none }

/-- An adapter reporting `anthropicSpec` missing for the node-type pass. -/
def llmAdapter : CredentialStoreAdapter :=
  { get_missing_for_tools := fun _ => [],
    get_missing_for_node_types := fun _ => [("anthropic", anthropicSpec)] }

/-- A one-node workload with no tools on an `llm` node. -/
def llmNodes : List NodeSpec := [{ tools := [], node_type := "llm" }]

/-- A spec required by two tools, with a help URL. -/
def w3Spec : CredentialSpec :=
  { env_var := "SEARCH_KEY", tools := ["web", "search"], node_types := [],
    help_url := some "https://example.com/key" }

/-- An adapter reporting one tool-pass and one node-type-pass entry. -/
def w3Adapter : CredentialStoreAdapter :=
  { get_missing_for_tools := fun _ => [("search", w3Spec)],
    get_missing_for_node_types := fun _ => [("anthropic", anthropicSpec)] }

/-- A one-node workload with two tools on an `llm` node. -/
def w3Nodes : List NodeSpec := [{ tools := ["search", "web"], node_type := "llm" }]

/-- Two nodes used to exercise permutation invariance. -/
def w5NodeA : NodeSpec := { tools := ["b_tool", "a_tool"], node_type := "llm" }

/-- Second node of the permutation fixture. -/
def w5NodeB : NodeSpec := { tools := ["c_tool"], node_type := "code" }

/-- An adapter whose output depends on the tool list it is handed, so the
permutation theorem is exercised non-trivially. -/
def w5Adapter : CredentialStoreAdapter :=
  { get_missing_for_tools := fun ts => ts.map (fun t =>
      (t, { env_var := t, tools := [t], node_types := [], help_url := none })),
    get_missing_for_node_types := fun _ => [] }

/-- An environment where `HIVE_CREDENTIAL_KEY` is present but empty. -/
def c6Env : Env := fun v => if v = "HIVE_CREDENTIAL_KEY" then some "" else none

/-- A shell-config lookup that finds a non-empty value for every variable. -/
def c6Lookup : ShellConfigLookup := fun _ => (true, some "recovered-key")

/-- An environment where `ADEN_API_KEY` is present and non-empty. -/
def w6Env : Env := fun v => if v = "ADEN_API_KEY" then some "aden-token" else none

/-- A shell-config lookup returning a per-variable value. -/
def w6Lookup : ShellConfigLookup := fun v => (true, some ("cfg-" ++ v))

/-- A missing credential whose store write will be made to fail. -/
def credA : MissingCredential :=
  { env_var := "A_KEY", tools := ["toolA"], node_types := [],
    description := none, help_url := none }

/-- A missing credential whose store write succeeds. -/
def credB : MissingCredential :=
  { env_var := "B_KEY", tools := ["toolB"], node_types := [],
    description := none, help_url := none }

/-- A store collaborator failing exactly on `A_KEY`. -/
def failAStore : StoreCredential := fun c _ =>
  if c.env_var = "A_KEY" then Except.error "boom" else Except.ok ()

/-- A store collaborator that always succeeds. -/
def okStore : StoreCredential := fun _ _ => Except.ok ()

/-- Inputs where every field holds a padded non-blank value. -/
def c7Inputs : Nat → String := fun _ => " secret "

/-- Inputs where every field is whitespace only. -/
def blankInputs : Nat → String := fun _ => "   "

/-- Inputs where field 0 is blank and field 1 holds a padded value. -/
def c9Inputs : Nat → String := fun i => if i = 0 then "  " else " val-b "

deriving instance DecidableEq for Except

/-! ### Properties of the lexicographic order -/

theorem charListLe_cons_iff (a b : Char) (as bs : List Char) :
    charListLe (a :: as) (b :: bs) = true ↔ a < b ∨ (a = b ∧ charListLe as bs = true) := by
  rcases lt_trichotomy a b with h | h | h
  · simp [charListLe, h, asymm h]
  · simp [charListLe, h, lt_irrefl]
  · have hne : a ≠ b := ne_of_gt h
    simp [charListLe, asymm h, h, hne]

theorem charListLe_total : ∀ a b : List Char, charListLe a b = true ∨ charListLe b a = true
  | [], _ => Or.inl rfl
  | _ :: _, [] => Or.inr rfl
  | a :: as, b :: bs => by
    rcases lt_trichotomy a b with h | h | h
    · exact Or.inl ((charListLe_cons_iff _ _ _ _).mpr (Or.inl h))
    · subst h
      rcases charListLe_total as bs with h' | h'
      · exact Or.inl ((charListLe_cons_iff _ _ _ _).mpr (Or.inr ⟨rfl, h'⟩))
      · exact Or.inr ((charListLe_cons_iff _ _ _ _).mpr (Or.inr ⟨rfl, h'⟩))
    · exact Or.inr ((charListLe_cons_iff _ _ _ _).mpr (Or.inl h))

theorem charListLe_antisymm : ∀ a b : List Char,
    charListLe a b = true → charListLe b a = true → a = b
  | [], [], _, _ => rfl
  | [], _ :: _, _, h => by simp [charListLe] at h
  | _ :: _, [], h, _ => by simp [charListLe] at h
  | a :: as, b :: bs, h₁, h₂ => by
    rcases (charListLe_cons_iff _ _ _ _).mp h₁ with h | ⟨rfl, h⟩
    · rcases (charListLe_cons_iff _ _ _ _).mp h₂ with h' | ⟨h', _⟩
      · exact absurd h' (asymm h)
      · exact absurd h'.symm (ne_of_lt h)
    · rcases (charListLe_cons_iff _ _ _ _).mp h₂ with h' | ⟨_, h'⟩
      · exact absurd h' (lt_irrefl _)
      · rw [charListLe_antisymm as bs h h']

theorem charListLe_trans : ∀ a b c : List Char,
    charListLe a b = true → charListLe b c = true → charListLe a c = true
  | [], _, _, _, _ => rfl
  | _ :: _, [], _, h, _ => by simp [charListLe] at h
  | _ :: _, _ :: _, [], _, h => by simp [charListLe] at h
  | a :: as, b :: bs, c :: cs, h₁, h₂ => by
    rcases (charListLe_cons_iff _ _ _ _).mp h₁ with h | ⟨rfl, h⟩ <;>
      rcases (charListLe_cons_iff _ _ _ _).mp h₂ with h' | ⟨h', hcs⟩
    · exact (charListLe_cons_iff _ _ _ _).mpr (Or.inl (lt_trans h h'))
    · exact (charListLe_cons_iff _ _ _ _).mpr (Or.inl (h' ▸ h))
    · exact (charListLe_cons_iff _ _ _ _).mpr (Or.inl h')
    · exact (charListLe_cons_iff _ _ _ _).mpr
        (Or.inr ⟨h', charListLe_trans as bs cs h hcs⟩)

instance : IsTotal String (fun a b => strLe a b = true) :=
  ⟨fun a b => charListLe_total a.data b.data⟩

instance : IsTrans String (fun a b => strLe a b = true) :=
  ⟨fun a b c => charListLe_trans a.data b.data c.data⟩

instance : IsAntisymm String (fun a b => strLe a b = true) :=
  ⟨fun a b h₁ h₂ => by
    cases a; cases b
    exact congrArg String.mk (charListLe_antisymm _ _ h₁ h₂)⟩

/-! ### Structure lemmas for the validation entry point -/

theorem foldl_append_map {α β : Type} (f : α → β) :
    ∀ (l : List α) (init : List β),
      l.foldl (fun acc x => acc ++ [f x]) init = init ++ l.map f
  | [], init => by simp
  | x :: xs, init => by
    simp only [List.foldl_cons, List.map_cons, foldl_append_map f xs]
    simp

/-- The missing list is the tool-pass entries followed by the
node-type-pass entries, one entry per adapter result. -/
theorem missingEntries_eq (adapter : CredentialStoreAdapter) (nodes : List NodeSpec) :
    missingEntries adapter nodes =
      (adapter.get_missing_for_tools (required_tools nodes)).map
        (fun p => toolEntry (required_tools nodes) p.2) ++
      (adapter.get_missing_for_node_types (graph_node_types nodes)).map
        (fun p => nodeTypeEntry (graph_node_types nodes) p.2) := by
  unfold missingEntries
  rw [foldl_append_map, foldl_append_map]
  simp

theorem intercalate_go_append (s : String) :
    ∀ (as : List String) (acc₁ acc₂ : String),
      String.intercalate.go (acc₁ ++ acc₂) s as = acc₁ ++ String.intercalate.go acc₂ s as
  | [], acc₁, acc₂ => rfl
  | a :: as, acc₁, acc₂ => by
    have h1 : acc₁ ++ acc₂ ++ s ++ a = acc₁ ++ (acc₂ ++ s ++ a) := by
      simp [String.append_assoc]
    show String.intercalate.go (acc₁ ++ acc₂ ++ s ++ a) s as =
      acc₁ ++ String.intercalate.go (acc₂ ++ s ++ a) s as
    rw [h1]
    exact intercalate_go_append s as acc₁ (acc₂ ++ s ++ a)

theorem intercalate_cons (s h a : String) (as : List String) :
    String.intercalate s (h :: a :: as) = h ++ s ++ String.intercalate s (a :: as) :=
  intercalate_go_append s as (h ++ s) a

theorem intercalate_cons_ne (s h : String) (l : List String) (hl : l ≠ []) :
    String.intercalate s (h :: l) = h ++ s ++ String.intercalate s l := by
  rcases l with _ | ⟨a, as⟩
  · exact absurd rfl hl
  · exact intercalate_cons s h a as

theorem intercalate_append_last (s f : String) :
    ∀ (m : List String), m ≠ [] →
      String.intercalate s (m ++ [f]) = String.intercalate s m ++ s ++ f
  | [], h => absurd rfl h
  | [a], _ => rfl
  | a :: b :: m, _ => by
    have ih := intercalate_append_last s f (b :: m) (by simp)
    rw [List.cons_append] at ih
    show String.intercalate s (a :: b :: (m ++ [f])) = _
    rw [intercalate_cons, ih, intercalate_cons]
    simp [String.append_assoc]

/-- The raised message spelled out: header line, blank line, the missing
entries joined with newlines, blank line, remediation hint. -/
theorem credentialErrorMessage_eq (m : List String) (h : m ≠ []) :
    credentialErrorMessage m =
      "Missing required credentials:\n\n" ++ String.intercalate "\n" m ++ "\n" ++
        remediationFooter := by
  rcases m with _ | ⟨a, m⟩
  · exact absurd rfl h
  · unfold credentialErrorMessage
    simp only [List.singleton_append, List.cons_append, List.nil_append]
    rw [intercalate_cons,
      show a :: (m ++ [remediationFooter]) = (a :: m) ++ [remediationFooter] from
        (List.cons_append a m _).symm,
      intercalate_append_last "\n" remediationFooter (a :: m) (by simp),
      show ("Missing required credentials:\n\n" : String) =
        "Missing required credentials:\n" ++ "\n" from by decide]
    simp [String.append_assoc]

/-! ### Permutation invariance of the aggregation -/

theorem sortedStr_dedup_perm {l₁ l₂ : List String} (h : l₁.Perm l₂) :
    sortedStr l₁.dedup = sortedStr l₂.dedup :=
  List.eq_of_perm_of_sorted
    (((List.perm_insertionSort _ _).trans h.dedup).trans
      (List.perm_insertionSort _ _).symm)
    (List.sorted_insertionSort _ _) (List.sorted_insertionSort _ _)

theorem required_tools_perm {n₁ n₂ : List NodeSpec} (h : n₁.Perm n₂) :
    required_tools n₁ = required_tools n₂ :=
  sortedStr_dedup_perm (h.flatMap_right NodeSpec.tools)

theorem graph_node_types_perm {n₁ n₂ : List NodeSpec} (h : n₁.Perm n₂) :
    graph_node_types n₁ = graph_node_types n₂ :=
  sortedStr_dedup_perm (h.map NodeSpec.node_type)

/-! ### Pointwise behaviour of `ensure_credential_key_env` -/

theorem ensureStep_self (l : ShellConfigLookup) (env : Env) (var : String) :
    ensureStep l env var var =
      if envTruthy (env var) then env var else lookupValue l var (env var) := by
  unfold ensureStep lookupValue
  by_cases h : envTruthy (env var)
  · simp [h]
  · rcases hl : l var with ⟨found, v⟩
    cases v with
    | none => simp [h, hl]
    | some v =>
        by_cases hf : found = true ∧ ¬v = ""
        · simp [h, hl, hf, setEnv]
        · simp [h, hl, hf]

theorem ensureStep_other (l : ShellConfigLookup) (env : Env) (var x : String)
    (hx : x ≠ var) : ensureStep l env var x = env x := by
  unfold ensureStep
  by_cases h : envTruthy (env var)
  · simp [h]
  · rcases hl : l var with ⟨found, v⟩
    cases v with
    | none => simp [h, hl]
    | some v =>
        by_cases hf : found = true ∧ ¬v = ""
        · simp [h, hl, hf, setEnv, hx]
        · simp [h, hl, hf]


theorem saveStep_foldl_eq (store : StoreCredential) (inputs : Nat → String) :
    ∀ (entries : List (Nat × MissingCredential)) (effs : List Effect) (conf : Nat),
      entries.foldl (saveStep store inputs) (effs, conf) =
        (effs ++ entries.flatMap (entryEffects store inputs),
          conf + entries.countP (entryConfigured store inputs)) := by
  intro entries
  induction entries with
  | nil => intro effs conf; simp
  | cons p ps ih =>
    intro effs conf
    by_cases hv : stripStr (inputs p.1) = ""
    · simp only [List.foldl_cons, saveStep, hv, if_pos rfl, ih, List.flatMap_cons,
        entryEffects, List.countP_cons, entryConfigured, hv]
      simp [hv]
    · simp only [List.foldl_cons, saveStep, if_neg hv]
      cases hs : store p.2 (stripStr (inputs p.1)) with
      | ok u =>
          rw [ih]
          simp [List.flatMap_cons, List.countP_cons, entryEffects, entryConfigured,
            hs, hv, Except.toBool]
          omega
      | error e =>
          rw [ih]
          simp [List.flatMap_cons, List.countP_cons, entryEffects, entryConfigured,
            hs, hv, Except.toBool]

/-- `_save_credentials` as a flat trace: the key-ensuring effect, the
per-entry effects in order, and the final dismissal or warning. -/
theorem save_credentials_eq (store : StoreCredential) (missing : List MissingCredential)
    (inputs : Nat → String) :
    _save_credentials store missing inputs =
      Effect.ensureKey :: missing.enum.flatMap (entryEffects store inputs) ++
        [if 0 < missing.enum.countP (entryConfigured store inputs) then
            Effect.dismiss (some true)
          else Effect.notifyWarning "No credentials entered"] := by
  unfold _save_credentials
  rw [saveStep_foldl_eq]
  simp only [Nat.zero_add]
  by_cases h : 0 < missing.enum.countP (entryConfigured store inputs)
  · simp only [gt_iff_lt, if_pos h, List.singleton_append]
  · simp only [gt_iff_lt, if_neg h, List.singleton_append]

/-! ### Helper lemmas for membership and counting -/

theorem mem_sortedStr (l : List String) (t : String) : t ∈ sortedStr l ↔ t ∈ l :=
  (List.perm_insertionSort _ l).mem_iff

theorem sortedStr_sorted (l : List String) :
    (sortedStr l).Sorted (fun a b => strLe a b = true) :=
  List.sorted_insertionSort _ l

theorem entryEffects_of_blank (store : StoreCredential) (inputs : Nat → String)
    (p : Nat × MissingCredential) (hp : stripStr (inputs p.1) = "") :
    entryEffects store inputs p = [Effect.readInput p.1] := by
  simp [entryEffects, hp]

theorem entryConfigured_of_blank (store : StoreCredential) (inputs : Nat → String)
    (p : Nat × MissingCredential) (hp : stripStr (inputs p.1) = "") :
    entryConfigured store inputs p = false := by
  simp [entryConfigured, hp]

theorem flatMap_entryEffects_of_blank (store : StoreCredential) (inputs : Nat → String) :
    ∀ entries : List (Nat × MissingCredential),
      (∀ p ∈ entries, stripStr (inputs p.1) = "") →
      entries.flatMap (entryEffects store inputs) =
        entries.map (fun p => Effect.readInput p.1)
  | [], _ => rfl
  | p :: ps, h => by
    rw [List.flatMap_cons, entryEffects_of_blank store inputs p (h p (by simp)),
      flatMap_entryEffects_of_blank store inputs ps
        (fun q hq => h q (List.mem_cons_of_mem p hq)),
      List.map_cons]
    rfl

theorem entryEffects_countP_storeWrite (store : StoreCredential) (inputs : Nat → String)
    (p : Nat × MissingCredential) :
    (entryEffects store inputs p).countP isStoreWrite =
      if entryConfigured store inputs p then 1 else 0 := by
  unfold entryEffects entryConfigured
  by_cases hv : stripStr (inputs p.1) = ""
  · simp [hv, isStoreWrite]
  · cases hs : store p.2 (stripStr (inputs p.1)) with
    | ok u => simp [hv, hs, isStoreWrite, Except.toBool, List.countP_cons]
    | error e => simp [hv, hs, isStoreWrite, Except.toBool, List.countP_cons]

theorem flatMap_countP_storeWrite (store : StoreCredential) (inputs : Nat → String) :
    ∀ entries : List (Nat × MissingCredential),
      (entries.flatMap (entryEffects store inputs)).countP isStoreWrite =
        entries.countP (entryConfigured store inputs)
  | [] => rfl
  | p :: ps => by
    rw [List.flatMap_cons, List.countP_append, List.countP_cons,
      entryEffects_countP_storeWrite, flatMap_countP_storeWrite store inputs ps]
    cases h : entryConfigured store inputs p <;> simp [h, Nat.add_comm]

/-! ### Claim theorems -/

/-- C1: whenever the store adapter reports at least one missing credential
for the aggregated tools or node types, `validate_agent_credentials`
raises exactly one `CredentialError` whose message carries the full
missing list and the remediation text; when the adapter reports none, it
returns normally without raising. -/
theorem validate_error_iff_missing (adapter : CredentialStoreAdapter)
    (lookup : Option ShellConfigLookup) (env : Env) (nodes : List NodeSpec) :
    ((validate_agent_credentials (some adapter) lookup env nodes).2 = Except.ok () ↔
      missingEntries adapter nodes = []) ∧
    (missingEntries adapter nodes ≠ [] →
      (validate_agent_credentials (some adapter) lookup env nodes).2 =
        Except.error (credentialErrorMessage (missingEntries adapter nodes))) := by
  constructor
  · unfold validate_agent_credentials
    by_cases h : missingEntries adapter nodes = []
    · simp [h]
    · simp [h, List.isEmpty_iff]
  · intro h
    unfold validate_agent_credentials
    simp [h, List.isEmpty_iff]

/-- Witness for C1 at a concrete adapter and workload. -/
theorem validate_error_iff_missing_witness :
    missingEntries w1Adapter w1Nodes ≠ [] ∧
    (validate_agent_credentials (some w1Adapter) none emptyEnv w1Nodes).2 =
      Except.error (credentialErrorMessage (missingEntries w1Adapter w1Nodes)) :=
  ⟨by decide, (validate_error_iff_missing w1Adapter none emptyEnv w1Nodes).2 (by decide)⟩

/-- Counterexample to C2: `dualSpec` is missing and required both by the
`search` tool and by the `llm` node type, yet the missing list carries two
separate entries for it — one from the tool pass and one from the
node-type pass — not one combined entry. -/
theorem missing_entry_duplicated_across_passes :
    missingEntries dualAdapter dualNodes =
      ["  DUAL_KEY for search", "  DUAL_KEY for llm nodes"] ∧
    (missingEntries dualAdapter dualNodes).length ≠ 1 := by decide

/-- C2 (amended): the two requirement passes are never merged; the missing
list is the tool-pass entries followed by the node-type-pass entries, one
entry per adapter result, so a spec reported missing by both passes
contributes two entries. -/
theorem missing_list_concatenates_passes (adapter : CredentialStoreAdapter)
    (nodes : List NodeSpec) :
    missingEntries adapter nodes =
      (adapter.get_missing_for_tools (required_tools nodes)).map
        (fun p => toolEntry (required_tools nodes) p.2) ++
      (adapter.get_missing_for_node_types (graph_node_types nodes)).map
        (fun p => nodeTypeEntry (graph_node_types nodes) p.2) ∧
    (missingEntries adapter nodes).length =
      (adapter.get_missing_for_tools (required_tools nodes)).length +
        (adapter.get_missing_for_node_types (graph_node_types nodes)).length := by
  refine ⟨missingEntries_eq adapter nodes, ?_⟩
  rw [missingEntries_eq]
  simp

set_option maxRecDepth 8192 in
/-- Counterexample to C3: a node-type entry carries a `" nodes"` suffix
after the comma-joined affected names, so the message is not the claimed
`'  <env_var> for <comma-joined affected names>'` shape verbatim. -/
theorem node_type_entry_breaks_claimed_format :
    (validate_agent_credentials (some llmAdapter) none emptyEnv llmNodes).2 =
      Except.error (credentialErrorMessage ["  ANTHROPIC_API_KEY for llm nodes"]) ∧
    (validate_agent_credentials (some llmAdapter) none emptyEnv llmNodes).2 ≠
      Except.error (credentialErrorMessage ["  ANTHROPIC_API_KEY for llm"]) := by
  decide

/-- C3 (amended): the raised message is exactly the header line, a blank
line, one two-space-indented line per missing credential of the form
`'  <env_var> for <comma-joined affected names>'` — with a `" nodes"`
suffix for node-type entries — each followed, when the spec has a help
URL, by `'\n    Get it at: <url>'`, then a blank line and the remediation
hint; the affected names are exactly the intersection of the workload's
own tools (or node types) with the spec's, sorted. -/
theorem error_message_exact_format (adapter : CredentialStoreAdapter)
    (lookup : Option ShellConfigLookup) (env : Env) (nodes : List NodeSpec)
    (h : missingEntries adapter nodes ≠ []) :
    (validate_agent_credentials (some adapter) lookup env nodes).2 =
      Except.error ("Missing required credentials:\n\n" ++
        String.intercalate "\n" (missingEntries adapter nodes) ++ "\n" ++
        remediationFooter) ∧
    (∀ p ∈ adapter.get_missing_for_tools (required_tools nodes),
      toolEntry (required_tools nodes) p.2 =
        "  " ++ p.2.env_var ++ " for " ++
          String.intercalate ", " (affectedTools (required_tools nodes) p.2) ++
          helpSuffix p.2) ∧
    (∀ p ∈ adapter.get_missing_for_node_types (graph_node_types nodes),
      nodeTypeEntry (graph_node_types nodes) p.2 =
        "  " ++ p.2.env_var ++ " for " ++
          String.intercalate ", " (affectedNodeTypes (graph_node_types nodes) p.2) ++
          " nodes" ++ helpSuffix p.2) ∧
    (∀ spec : CredentialSpec,
      (affectedTools (required_tools nodes) spec).Sorted (fun a b => strLe a b = true) ∧
      ∀ t, t ∈ affectedTools (required_tools nodes) spec ↔
        (t ∈ required_tools nodes ∧ t ∈ spec.tools)) ∧
    (∀ spec : CredentialSpec,
      (affectedNodeTypes (graph_node_types nodes) spec).Sorted
        (fun a b => strLe a b = true) ∧
      ∀ t, t ∈ affectedNodeTypes (graph_node_types nodes) spec ↔
        (t ∈ graph_node_types nodes ∧ t ∈ spec.node_types)) := by
  refine ⟨?_, fun p _ => rfl, fun p _ => rfl, fun spec => ⟨sortedStr_sorted _, fun t => ?_⟩,
    fun spec => ⟨sortedStr_sorted _, fun t => ?_⟩⟩
  · unfold validate_agent_credentials
    simp [h, List.isEmpty_iff, credentialErrorMessage_eq _ h]
  · rw [affectedTools, mem_sortedStr, List.mem_filter]
    simp
  · rw [affectedNodeTypes, mem_sortedStr, List.mem_filter]
    simp

/-- Witness for C3 (amended) at a concrete adapter and workload. -/
theorem error_message_exact_format_witness :
    missingEntries w3Adapter w3Nodes ≠ [] ∧
    (validate_agent_credentials (some w3Adapter) none emptyEnv w3Nodes).2 =
      Except.error ("Missing required credentials:\n\n" ++
        String.intercalate "\n" (missingEntries w3Adapter w3Nodes) ++ "\n" ++
        remediationFooter) :=
  ⟨by decide,
    (error_message_exact_format w3Adapter none emptyEnv w3Nodes (by decide)).1⟩

/-- C4: when the `aden_tools` store adapter is not installed,
`validate_agent_credentials` returns normally for every node list, leaving
the environment untouched; when the shell-config lookup is not installed,
`ensure_credential_key_env` returns without error and without modifying
the environment. -/
theorem absent_collaborators_are_no_ops (lookup : Option ShellConfigLookup)
    (env : Env) (nodes : List NodeSpec) :
    validate_agent_credentials none lookup env nodes = (env, Except.ok ()) ∧
    ensure_credential_key_env none env = env :=
  ⟨rfl, rfl⟩

/-- C5: `validate_agent_credentials` gives the identical outcome — the
same environment, the same missing list and hence character-for-character
the same error message, or the same normal return — on any two node lists
that are permutations of each other. -/
theorem validate_perm_invariant (adapter : Option CredentialStoreAdapter)
    (lookup : Option ShellConfigLookup) (env : Env) {n₁ n₂ : List NodeSpec}
    (h : n₁.Perm n₂) :
    validate_agent_credentials adapter lookup env n₁ =
      validate_agent_credentials adapter lookup env n₂ := by
  cases adapter with
  | none => rfl
  | some adapter =>
      have hm : missingEntries adapter n₁ = missingEntries adapter n₂ := by
        unfold missingEntries
        rw [required_tools_perm h, graph_node_types_perm h]
      simp only [validate_agent_credentials, hm]

/-- Witness for C5 on a concrete two-node swap. -/
theorem validate_perm_invariant_witness :
    ([w5NodeA, w5NodeB] : List NodeSpec).Perm [w5NodeB, w5NodeA] ∧
    validate_agent_credentials (some w5Adapter) none emptyEnv [w5NodeA, w5NodeB] =
      validate_agent_credentials (some w5Adapter) none emptyEnv [w5NodeB, w5NodeA] :=
  ⟨List.Perm.swap w5NodeB w5NodeA [],
    validate_perm_invariant (some w5Adapter) none emptyEnv
      (List.Perm.swap w5NodeB w5NodeA [])⟩

/-- Counterexample to C6: `HIVE_CREDENTIAL_KEY` is present in the
environment (with the empty string as value), yet
`ensure_credential_key_env` consults the fallback and overwrites it,
because the code tests Python truthiness, not presence. -/
theorem present_empty_value_overwritten :
    c6Env "HIVE_CREDENTIAL_KEY" = some "" ∧
    ensure_credential_key_env (some c6Lookup) c6Env "HIVE_CREDENTIAL_KEY" =
      some "recovered-key" :=
  ⟨rfl, by decide⟩

/-- C6 (amended): for each of `HIVE_CREDENTIAL_KEY` and `ADEN_API_KEY`, if
the variable is present with a non-empty value it is left unchanged (the
lookup result is irrelevant); otherwise — absent or present-but-empty —
it is set to the fallback value exactly when the lookup reports it found
with a non-empty value; a present non-empty value is never overwritten. -/
theorem ensure_env_pointwise (lookup : ShellConfigLookup) (env : Env) (var : String)
    (h : var ∈ credentialKeyVars) :
    ensure_credential_key_env (some lookup) env var =
      (if envTruthy (env var) then env var else lookupValue lookup var (env var)) := by
  have hv : var = "HIVE_CREDENTIAL_KEY" ∨ var = "ADEN_API_KEY" := by
    simpa [credentialKeyVars] using h
  show (ensureStep lookup (ensureStep lookup env "HIVE_CREDENTIAL_KEY")
    "ADEN_API_KEY") var = _
  rcases hv with rfl | rfl
  · rw [ensureStep_other lookup _ "ADEN_API_KEY" "HIVE_CREDENTIAL_KEY" (by decide)]
    exact ensureStep_self lookup env "HIVE_CREDENTIAL_KEY"
  · have henv : ensureStep lookup env "HIVE_CREDENTIAL_KEY" "ADEN_API_KEY" =
        env "ADEN_API_KEY" :=
      ensureStep_other lookup env "HIVE_CREDENTIAL_KEY" "ADEN_API_KEY" (by decide)
    rw [ensureStep_self lookup _ "ADEN_API_KEY", henv]

/-- Witness for C6 (amended) at a present non-empty `ADEN_API_KEY`. -/
theorem ensure_env_pointwise_witness :
    ("ADEN_API_KEY" ∈ credentialKeyVars) ∧
    ensure_credential_key_env (some w6Lookup) w6Env "ADEN_API_KEY" =
      (if envTruthy (w6Env "ADEN_API_KEY") then w6Env "ADEN_API_KEY"
        else lookupValue w6Lookup "ADEN_API_KEY" (w6Env "ADEN_API_KEY")) :=
  ⟨by decide, ensure_env_pointwise w6Lookup w6Env "ADEN_API_KEY" (by decide)⟩

set_option maxRecDepth 8192 in
/-- Counterexample to C7: with one failing and one succeeding entry, the
store failure is caught and reported for its entry and the remaining entry
is still processed, but the only notification in the whole session is
that per-entry error — no partial-success summary with a configured count
versus a failed count is ever reported. -/
theorem store_failure_reported_without_summary :
    _save_credentials failAStore [credA, credB] c7Inputs =
      [Effect.ensureKey, Effect.readInput 0,
        Effect.notifyError "Error storing A_KEY: boom", Effect.readInput 1,
        Effect.storeWrite "B_KEY" "secret", Effect.dismiss (some true)] ∧
    (_save_credentials failAStore [credA, credB] c7Inputs).countP isNotification = 1 := by
  decide

/-- C7 (amended): a store failure for one entry is not fatal — the
exception is caught and reported as an individual error notification for
that entry, every entry is still read and processed, and the session ends
by dismissing with success when at least one entry was configured and by
a "No credentials entered" warning otherwise; no configured-versus-failed
count summary is produced. -/
theorem save_continues_after_failure (store : StoreCredential)
    (missing : List MissingCredential) (inputs : Nat → String) :
    (_save_credentials store missing inputs =
      Effect.ensureKey :: missing.enum.flatMap (entryEffects store inputs) ++
        [if 0 < missing.enum.countP (entryConfigured store inputs) then
            Effect.dismiss (some true)
          else Effect.notifyWarning "No credentials entered"]) ∧
    (∀ p ∈ missing.enum,
      Effect.readInput p.1 ∈ _save_credentials store missing inputs) ∧
    (∀ p ∈ missing.enum, ∀ e, stripStr (inputs p.1) ≠ "" →
      store p.2 (stripStr (inputs p.1)) = Except.error e →
      Effect.notifyError ("Error storing " ++ p.2.env_var ++ ": " ++ e) ∈
        _save_credentials store missing inputs) := by
  refine ⟨save_credentials_eq store missing inputs, ?_, ?_⟩
  · intro p hp
    rw [save_credentials_eq]
    apply List.mem_cons_of_mem
    apply List.mem_append_left
    exact List.mem_flatMap.mpr ⟨p, hp, by simp [entryEffects]⟩
  · intro p hp e hv hs
    rw [save_credentials_eq]
    apply List.mem_cons_of_mem
    apply List.mem_append_left
    refine List.mem_flatMap.mpr ⟨p, hp, ?_⟩
    simp [entryEffects, hv, hs]

/-- Witness for C7 (amended): the failing entry of the fixture produces
its individual error notification in the trace. -/
theorem save_continues_after_failure_witness :
    ((0, credA) ∈ ([credA, credB] : List MissingCredential).enum) ∧
    stripStr (c7Inputs 0) ≠ "" ∧
    failAStore credA (stripStr (c7Inputs 0)) = Except.error "boom" ∧
    Effect.notifyError ("Error storing " ++ credA.env_var ++ ": " ++ "boom") ∈
      _save_credentials failAStore [credA, credB] c7Inputs :=
  ⟨by decide, by decide, by decide,
    (save_continues_after_failure failAStore [credA, credB] c7Inputs).2.2
      (0, credA) (by decide) "boom" (by decide) (by decide)⟩

set_option maxRecDepth 8192 in
/-- Counterexample to C8: submitting with every input blank performs zero
store writes, but the screen does not transition to `Cancelled` — no
`dismiss` call happens at all; the modal stays open and merely warns. -/
theorem blank_submit_stays_open :
    _save_credentials okStore [credA] blankInputs =
      [Effect.ensureKey, Effect.readInput 0,
        Effect.notifyWarning "No credentials entered"] ∧
    (_save_credentials okStore [credA] blankInputs).countP isDismiss = 0 ∧
    (_save_credentials okStore [credA] blankInputs).countP isStoreWrite = 0 := by
  decide

/-- C8 (amended): submitting with every input blank performs zero store
writes and no dismissal — the screen stays open with a "No credentials
entered" warning (it does not transition to `Cancelled`); submitting
exactly one non-blank entry whose store succeeds performs exactly one
store write and dismisses with `True` (`Saved`), with no count summary. -/
theorem blank_all_warns_and_single_success_saves (store : StoreCredential)
    (missing : List MissingCredential) (inputs : Nat → String) :
    ((∀ p ∈ missing.enum, stripStr (inputs p.1) = "") →
      _save_credentials store missing inputs =
        Effect.ensureKey :: missing.enum.map (fun p => Effect.readInput p.1) ++
          [Effect.notifyWarning "No credentials entered"] ∧
      (_save_credentials store missing inputs).countP isStoreWrite = 0 ∧
      (_save_credentials store missing inputs).countP isDismiss = 0) ∧
    (missing.enum.countP (fun p => decide (stripStr (inputs p.1) ≠ "")) = 1 →
      (∀ p ∈ missing.enum, stripStr (inputs p.1) ≠ "" →
        store p.2 (stripStr (inputs p.1)) = Except.ok ()) →
      (_save_credentials store missing inputs).countP isStoreWrite = 1 ∧
      (_save_credentials store missing inputs).getLast? =
        some (Effect.dismiss (some true))) := by
  constructor
  · intro hb
    have hc : missing.enum.countP (entryConfigured store inputs) = 0 :=
      List.countP_eq_zero.mpr fun p hp => by
        simp [entryConfigured_of_blank store inputs p (hb p hp)]
    have ht := save_credentials_eq store missing inputs
    rw [flatMap_entryEffects_of_blank store inputs _ hb, hc] at ht
    refine ⟨?_, ?_, ?_⟩
    · rw [ht]; simp
    · rw [ht]
      simp [List.countP_cons, List.countP_append, List.countP_map, isStoreWrite,
        Function.comp]
    · rw [ht]
      simp [List.countP_cons, List.countP_append, List.countP_map, isDismiss,
        Function.comp]
  · intro h1 h2
    have hcc : missing.enum.countP (entryConfigured store inputs) =
        missing.enum.countP (fun p => decide (stripStr (inputs p.1) ≠ "")) := by
      apply List.countP_congr
      intro p hp
      by_cases hv : stripStr (inputs p.1) = ""
      · simp [entryConfigured, hv]
      · simp [entryConfigured, hv, h2 p hp hv, Except.toBool]
    have hc1 : missing.enum.countP (entryConfigured store inputs) = 1 := hcc.trans h1
    constructor
    · rw [save_credentials_eq, hc1]
      simp [List.countP_cons, List.countP_append, isStoreWrite,
        flatMap_countP_storeWrite store inputs, hc1]
    · rw [save_credentials_eq, hc1, if_pos Nat.zero_lt_one]
      show ((Effect.ensureKey :: missing.enum.flatMap (entryEffects store inputs)) ++
        [Effect.dismiss (some true)]).getLast? = some (Effect.dismiss (some true))
      exact List.getLast?_concat _

/-- Witness for C8 (amended): both scenarios at concrete fixtures. -/
theorem blank_all_warns_and_single_success_saves_witness :
    ((∀ p ∈ ([credA] : List MissingCredential).enum,
        stripStr (blankInputs p.1) = "") ∧
      _save_credentials okStore [credA] blankInputs =
        Effect.ensureKey ::
          ([credA] : List MissingCredential).enum.map
            (fun p => Effect.readInput p.1) ++
          [Effect.notifyWarning "No credentials entered"]) ∧
    ((([credB] : List MissingCredential).enum.countP
        (fun p => decide (stripStr (c7Inputs p.1) ≠ ""))) = 1 ∧
      (_save_credentials okStore [credB] c7Inputs).countP isStoreWrite = 1 ∧
      (_save_credentials okStore [credB] c7Inputs).getLast? =
        some (Effect.dismiss (some true))) :=
  ⟨⟨by decide,
      ((blank_all_warns_and_single_success_saves okStore [credA] blankInputs).1
        (by decide)).1⟩,
    ⟨by decide,
      (blank_all_warns_and_single_success_saves okStore [credB] c7Inputs).2
        (by decide) (by decide)⟩⟩

/-- C9: every submitted value is trimmed of surrounding whitespace before
use — each store write in the trace writes the trimmed value of its entry
and only non-blank-after-trim entries are written — and an entry that is
empty after trimming is skipped: it contributes no store write and does
not count as configured. -/
theorem values_trimmed_blank_skipped (store : StoreCredential)
    (missing : List MissingCredential) (inputs : Nat → String) :
    ((_save_credentials store missing inputs).countP isStoreWrite =
      missing.enum.countP (entryConfigured store inputs)) ∧
    (∀ e ∈ _save_credentials store missing inputs, isStoreWrite e = true →
      ∃ p, p ∈ missing.enum ∧
        e = Effect.storeWrite p.2.env_var (stripStr (inputs p.1)) ∧
        stripStr (inputs p.1) ≠ "") ∧
    (∀ p ∈ missing.enum, stripStr (inputs p.1) = "" →
      entryEffects store inputs p = [Effect.readInput p.1] ∧
      entryConfigured store inputs p = false) := by
  refine ⟨?_, ?_, fun p _ hv =>
    ⟨entryEffects_of_blank store inputs p hv, entryConfigured_of_blank store inputs p hv⟩⟩
  · rw [save_credentials_eq]
    by_cases hcond : 0 < missing.enum.countP (entryConfigured store inputs)
    · simp [hcond, isStoreWrite, List.countP_cons, List.countP_append,
        flatMap_countP_storeWrite store inputs]
    · simp [hcond, isStoreWrite, List.countP_cons, List.countP_append,
        flatMap_countP_storeWrite store inputs]
  · intro e he hw
    rw [save_credentials_eq] at he
    rcases List.mem_cons.mp he with rfl | he
    · simp [isStoreWrite] at hw
    rcases List.mem_append.mp he with hf | hl
    · rcases List.mem_flatMap.mp hf with ⟨p, hp, hep⟩
      by_cases hv : stripStr (inputs p.1) = ""
      · rw [entryEffects_of_blank store inputs p hv] at hep
        rw [List.mem_singleton.mp hep] at hw
        simp [isStoreWrite] at hw
      · cases hs : store p.2 (stripStr (inputs p.1)) with
        | ok u =>
            simp [entryEffects, hv, hs] at hep
            rcases hep with rfl | rfl
            · simp [isStoreWrite] at hw
            · exact ⟨p, hp, rfl, hv⟩
        | error msg =>
            simp [entryEffects, hv, hs] at hep
            rcases hep with rfl | rfl
            · simp [isStoreWrite] at hw
            · simp [isStoreWrite] at hw
    · rw [List.mem_singleton.mp hl] at hw
      by_cases hcond : 0 < missing.enum.countP (entryConfigured store inputs)
      · rw [if_pos hcond] at hw
        simp [isStoreWrite] at hw
      · rw [if_neg hcond] at hw
        simp [isStoreWrite] at hw

/-- Witness for C9 at a blank first entry and a padded second entry. -/
theorem values_trimmed_blank_skipped_witness :
    ((_save_credentials okStore [credA, credB] c9Inputs).countP isStoreWrite =
      ([credA, credB] : List MissingCredential).enum.countP
        (entryConfigured okStore c9Inputs)) ∧
    (∃ p, p ∈ ([credA, credB] : List MissingCredential).enum ∧
      Effect.storeWrite "B_KEY" "val-b" =
        Effect.storeWrite p.2.env_var (stripStr (c9Inputs p.1)) ∧
      stripStr (c9Inputs p.1) ≠ "") :=
  ⟨(values_trimmed_blank_skipped okStore [credA, credB] c9Inputs).1,
    (values_trimmed_blank_skipped okStore [credA, credB] c9Inputs).2.1
      (Effect.storeWrite "B_KEY" "val-b") (by decide) (by decide)⟩

/-- C10: pressing Save always runs the master-key ensuring step as the
very first action, before any input value is read — also when every input
is blank and nothing is stored — while Skip and Escape dismiss with
`None` without key ensuring and without any store write. -/
theorem save_ensures_key_first_skip_dismisses_none (store : StoreCredential)
    (missing : List MissingCredential) (inputs : Nat → String) :
    (_save_credentials store missing inputs).head? = some Effect.ensureKey ∧
    (∃ rest, _save_credentials store missing inputs = Effect.ensureKey :: rest) ∧
    skip_button_effects = [Effect.dismiss none] ∧
    action_dismiss_setup = [Effect.dismiss none] ∧
    Effect.ensureKey ∉ skip_button_effects ∧
    skip_button_effects.countP isStoreWrite = 0 ∧
    Effect.ensureKey ∉ action_dismiss_setup ∧
    action_dismiss_setup.countP isStoreWrite = 0 := by
  refine ⟨?_, ⟨_, save_credentials_eq store missing inputs⟩, rfl, rfl,
    by decide, by decide, by decide, by decide⟩
  rw [save_credentials_eq]
  rfl

/-- Witness for C10 at a concrete store, entry list and inputs. -/
theorem save_ensures_key_first_skip_dismisses_none_witness :
    (_save_credentials okStore [credA] blankInputs).head? = some Effect.ensureKey ∧
    skip_button_effects = [Effect.dismiss none] ∧
    Effect.ensureKey ∉ skip_button_effects :=
  ⟨(save_ensures_key_first_skip_dismisses_none okStore [credA] blankInputs).1,
    (save_ensures_key_first_skip_dismisses_none okStore [credA] blankInputs).2.2.1,
    (save_ensures_key_first_skip_dismisses_none okStore [credA] blankInputs).2.2.2.2.1⟩

end Hive
